import Mathlib

/-!
Verification of the Personal-Finance-Tracker ledger and analytics engine.

The Python source is shallowly embedded: money amounts are integers in
minor units (`Int`), dates are `(year, month, day)` triples of naturals,
transaction records are structures, the flat-file store is a list of line
strings, and `float` arithmetic of the source (savings rates, utilization
percentages) is modelled by exact rational arithmetic over `ℚ`.
-/

namespace FinanceTracker

/-! ## String utilities modelling the Python primitives used by the code -/

/-- Characters removed by Python `str.strip()` (the common ASCII whitespace). -/
def isSpaceChar (c : Char) : Bool :=
  c = ' ' || c = '\t' || c = '\n' || c = '\r'

/-- Model of Python `str.strip()`. -/
def stripStr (s : String) : String :=
  String.mk (((s.data.dropWhile isSpaceChar).reverse.dropWhile isSpaceChar).reverse)

/-- Split a character list at every occurrence of `sep`,
matching Python `str.split(sep)` for a one-character separator. -/
def splitCharList (sep : Char) : List Char → List (List Char)
  | [] => [[]]
  | c :: cs =>
    let r := splitCharList sep cs
    if c = sep then [] :: r
    else
      match r with
      | f :: rest => (c :: f) :: rest
      | [] => [[c]]

/-- Model of Python `str.split(sep)` for a one-character separator. -/
def splitOnC (sep : Char) (s : String) : List String :=
  (splitCharList sep s.data).map String.mk

/-- Model of Python `str.lower()` (ASCII case folding). -/
def lowerStr (s : String) : String :=
  String.mk (s.data.map Char.toLower)

/-- All characters are decimal digits and the list is nonempty. -/
def digitsOnlyL (cs : List Char) : Bool :=
  !cs.isEmpty && cs.all Char.isDigit

/-- All characters are decimal digits and the string is nonempty. -/
def digitsOnly (s : String) : Bool :=
  digitsOnlyL s.data

/-- Numeric value of a digit character list. -/
def natOfDigitsL (cs : List Char) : Nat :=
  cs.foldl (fun n c => 10 * n + (c.toNat - 48)) 0

/-- Numeric value of a digit string. -/
def natOfDigits (s : String) : Nat :=
  natOfDigitsL s.data

/-- Model of Python `int(str)`: surrounding whitespace stripped, then an
optional sign followed by at least one decimal digit. -/
def parseIntStr (s : String) : Option Int :=
  match (stripStr s).data with
  | [] => none
  | c :: cs =>
    if c = '-' then
      if digitsOnlyL cs then some (-(natOfDigitsL cs : Int)) else none
    else if c = '+' then
      if digitsOnlyL cs then some (natOfDigitsL cs : Int) else none
    else if digitsOnlyL (c :: cs) then some (natOfDigitsL (c :: cs) : Int)
    else none

/-! ## Calendar model -/

/-- Gregorian leap year. -/
def isLeap (y : Nat) : Bool :=
  y % 4 = 0 && (y % 100 ≠ 0 || y % 400 = 0)

/-- Days in a Gregorian calendar month. -/
def daysInMonth (y m : Nat) : Nat :=
  if m = 2 then (if isLeap y then 29 else 28)
  else if m = 4 || m = 6 || m = 9 || m = 11 then 30
  else 31

/-- A calendar date as stored in a `datetime` (date part only; the code never
uses the time-of-day of parsed transactions). -/
structure Date where
  year : Nat
  month : Nat
  day : Nat
deriving DecidableEq, Repr

/-- Model of `datetime.strptime(s, "%Y-%m-%d")`: exactly three dash-separated
fields, a four-digit year, one- or two-digit month and day, and the values
must form a valid calendar date (as the `datetime` constructor checks). -/
def parseDate (s : String) : Option Date :=
  match splitOnC '-' s with
  | [ys, ms, ds] =>
    if digitsOnly ys && ys.length = 4 && digitsOnly ms && ms.length ≤ 2
        && digitsOnly ds && ds.length ≤ 2 then
      let y := natOfDigits ys
      let m := natOfDigits ms
      let d := natOfDigits ds
      if 1 ≤ y && 1 ≤ m && m ≤ 12 && 1 ≤ d && d ≤ daysInMonth y m then
        some ⟨y, m, d⟩
      else none
    else none
  | _ => none

/-- Day number of a date (days since 1970-01-01, Gregorian), the standard
era-based conversion; used to model `datetime - timedelta(days = n)`. -/
def toDayNumber (dt : Date) : Int :=
  let y : Int := if dt.month ≤ 2 then (dt.year : Int) - 1 else (dt.year : Int)
  let era : Int := (if 0 ≤ y then y else y - 399) / 400
  let yoe : Int := y - era * 400
  let mp : Int := ((dt.month : Int) + 9) % 12
  let doy : Int := (153 * mp + 2) / 5 + (dt.day : Int) - 1
  let doe : Int := yoe * 365 + yoe / 4 - yoe / 100 + doy
  era * 146097 + doe - 719468

/-- Inverse of `toDayNumber`. -/
def fromDayNumber (z0 : Int) : Date :=
  let z := z0 + 719468
  let era : Int := (if 0 ≤ z then z else z - 146096) / 146097
  let doe : Int := z - era * 146097
  let yoe : Int := (doe - doe / 1460 + doe / 36524 - doe / 146096) / 365
  let y : Int := yoe + era * 400
  let doy : Int := doe - (365 * yoe + yoe / 4 - yoe / 100)
  let mp : Int := (5 * doy + 2) / 153
  let d : Int := doy - (153 * mp + 2) / 5 + 1
  let m : Int := if mp < 10 then mp + 3 else mp - 9
  ⟨(if m ≤ 2 then y + 1 else y).toNat, m.toNat, d.toNat⟩

/-! ## Transaction records and the bulk load path

`read_transactions` (src/features/analytics/analytics.py lines 12-31) parses
`database/transactions.txt`.  A line that does not split into exactly five
comma-separated fields is skipped by the `len(parts) == 5` guard and the loop
continues; a five-field line whose date or amount fails to parse raises inside
the loop, which is caught by the `except` around the whole loop, so the read
stops there and the records accumulated so far are returned.  A missing file
(`FileNotFoundError`) yields the empty list. -/

structure Tx where
  date : Date
  type : String
  category : String
  description : String
  amount : Int
deriving DecidableEq, Repr

/-- Parse one stored line into a record: five comma-separated fields with a
valid date and an integer amount (the per-field work of the loop body). -/
def parseLine (l : String) : Option Tx :=
  match splitOnC ',' (stripStr l) with
  | [ds, ty, cat, desc, amt] =>
    match parseDate ds, parseIntStr amt with
    | some d, some a => some ⟨d, ty, cat, desc, a⟩
    | _, _ => none
  | _ => none

/-- The loop of `read_transactions`: skip lines with the wrong field count,
abort (keeping the prefix) at the first five-field line that fails to parse. -/
def readLines : List String → List Tx
  | [] => []
  | l :: ls =>
    if (splitOnC ',' (stripStr l)).length = 5 then
      match parseLine l with
      | some t => t :: readLines ls
      | none => []
    else readLines ls

/-- `read_transactions`: `none` models a missing backing file. -/
def read_transactions (file : Option (List String)) : List Tx :=
  match file with
  | none => []
  | some ls => readLines ls

/-! ## Per-category accumulation (`defaultdict(int)`)

A `defaultdict(int)` written to by `d[k] += v` is modelled as an
insertion-ordered association list: the first write appends a new entry,
later writes add into the existing entry in place. -/

/-- `d[k] += v` on an insertion-ordered association list. -/
def addTo (k : String) (v : Int) : List (String × Int) → List (String × Int)
  | [] => [(k, v)]
  | (k₀, v₀) :: rest =>
    if k₀ = k then (k₀, v₀ + v) :: rest else (k₀, v₀) :: addTo k v rest

/-- Sum of the values of an association list (`sum(d.values())`). -/
def sumValues (m : List (String × Int)) : Int :=
  (m.map (fun p => p.2)).sum

/-! ## `spending_analysis` aggregation (analytics.py lines 57-78)

The loop walks all transactions and, for `expense` records, accumulates the
per-category map and the running total of the current month and, through the
`elif`, of the last month. -/

/-- State of the `spending_analysis` loop. -/
structure SpendAgg where
  curMap : List (String × Int)
  lastMap : List (String × Int)
  curTotal : Int
  lastTotal : Int
deriving Repr

/-- One iteration of the `spending_analysis` loop body (lines 71-78):
`(cm, cy)` is the current month key, `(lm, ly)` the last month key. -/
def spendStep (cm cy lm ly : Nat) (s : SpendAgg) (t : Tx) : SpendAgg :=
  if t.type = "expense" then
    if t.date.month = cm ∧ t.date.year = cy then
      { s with curMap := addTo t.category t.amount s.curMap,
               curTotal := s.curTotal + t.amount }
    else if t.date.month = lm ∧ t.date.year = ly then
      { s with lastMap := addTo t.category t.amount s.lastMap,
               lastTotal := s.lastTotal + t.amount }
    else s
  else s

/-- The `spending_analysis` aggregation pass over the transaction list. -/
def spending_analysis_agg (ts : List Tx) (cm cy lm ly : Nat) : SpendAgg :=
  ts.foldl (spendStep cm cy lm ly) ⟨[], [], 0, 0⟩

/-! ## Current-month aggregates

Shared by `financial_health_score` (analytics.py lines 270-283),
`export_monthly_report` (data_management.py lines 76-110) and
`generate_comprehensive_report`: totals over the transactions whose
date has the given month and year. -/

/-- Current-month income total (`total_income_current_month`). -/
def curIncome : List Tx → Nat → Nat → Int
  | [], _, _ => 0
  | t :: ts, m, y =>
    (if t.date.month = m ∧ t.date.year = y ∧ t.type = "income"
      then t.amount else 0) + curIncome ts m y

/-- Current-month expense total (`total_expense_current_month`). -/
def curExpense : List Tx → Nat → Nat → Int
  | [], _, _ => 0
  | t :: ts, m, y =>
    (if t.date.month = m ∧ t.date.year = y ∧ t.type = "expense"
      then t.amount else 0) + curExpense ts m y

/-- Current-month expense total of one category
(`expenses_by_category_current_month.get(c, 0)`). -/
def curCatExpense : List Tx → Nat → Nat → String → Int
  | [], _, _, _ => 0
  | t :: ts, m, y, c =>
    (if t.date.month = m ∧ t.date.year = y ∧ t.type = "expense" ∧ t.category = c
      then t.amount else 0) + curCatExpense ts m y c

/-- Current-month total of records whose kind is neither `income` nor
`expense` (they are invisible to the income/expense aggregations). -/
def curUnknownKind : List Tx → Nat → Nat → Int
  | [], _, _ => 0
  | t :: ts, m, y =>
    (if t.date.month = m ∧ t.date.year = y ∧ t.type ≠ "income" ∧ t.type ≠ "expense"
      then t.amount else 0) + curUnknownKind ts m y

/-! ## Financial health score (analytics.py lines 260-354) -/

/-- A single-quote character, for rendering Python `repr` of strings. -/
def sq : String := String.singleton (Char.ofNat 39)

/-- Python `repr` of a string (as rendered inside an f-string). -/
def pyStrRepr (s : String) : String := sq ++ s ++ sq

/-- Python `repr` of a list of strings, e.g. `[ -quote- Food -quote- ]`. -/
def pyListRepr : List String → String
  | [] => "[]"
  | xs => "[" ++ String.intercalate ", " (xs.map pyStrRepr) ++ "]"

/-- `savings_rate` (line 290): percent savings of current-month income,
0 when income is not positive. Exact rational arithmetic models the
source float division. -/
def savings_rate_of (income expense : Int) : ℚ :=
  if income > 0 then ((income - expense : Int) : ℚ) / (income : ℚ) * 100 else 0

/-- Savings-rate sub-score and its recommendation (lines 292-301). -/
def savings_score_of (rate : ℚ) : Int × List String :=
  if rate ≥ 20 then (40, [])
  else if rate ≥ 10 then (25, [])
  else if rate > 0 then (10, [])
  else (0, ["Increase your savings rate by reducing unnecessary expenses or increasing income."])

/-- Budget-adherence sub-score and its recommendations (lines 304-330).
`budgets` is the `budgets_data` mapping as an insertion-ordered association
list; `spentBy c` is `expenses_by_category_current_month.get(c, 0)`. -/
def budget_adherence (budgets : List (String × Int)) (spentBy : String → Int) :
    Int × List String :=
  if budgets = [] then
    (0, ["Set up budgets to track your spending effectively."])
  else
    let overList := (budgets.filter (fun p => spentBy p.1 > p.2)).map (fun p => p.1)
    let overCount := (budgets.filter (fun p => spentBy p.1 > p.2)).length
    let totalBudget := (budgets.map (fun p => p.2)).sum
    let cappedSpent := (budgets.map (fun p => min (spentBy p.1) p.2)).sum
    if totalBudget > 0 then
      if overCount = 0 ∧ cappedSpent ≤ totalBudget then (30, [])
      else if overCount = 0 ∧ cappedSpent > totalBudget then
        (20, ["Review your overall budget, as total spending exceeded total allocated budget."])
      else if overCount > 0 then
        (10, ["Address overspending in categories: " ++ pyListRepr overList ++ "."])
      else (0, [])
    else (0, ["Set up budgets for better financial control."])

/-- Income-vs-expense sub-score and its recommendations (lines 336-350).
The source compares `savings >= total_income * 0.2`; the factor `0.2` is
modelled exactly as `1/5`. -/
def income_vs_expense_of (income expense : Int) : Int × List String :=
  let savings := income - expense
  if income > 0 then
    if (savings : ℚ) ≥ (income : ℚ) * (1 / 5) then (30, [])
    else if savings > 0 then (20, [])
    else if savings = 0 then
      (10, ["Aim to have positive savings (income > expenses)."])
    else
      (0, ["Your expenses exceed your income. Focus on reducing spending or increasing income."])
  else
    (0, if expense > 0 then
      ["No income recorded for the current month, but expenses exist. Please record your income."]
    else [])

/-- `financial_health_score` for reference month `(m, y)`: the total score and
the recommendation list in emission order. -/
def financial_health_score (ts : List Tx) (budgets : List (String × Int))
    (m y : Nat) : Int × List String :=
  let income := curIncome ts m y
  let expense := curExpense ts m y
  let s₁ := savings_score_of (savings_rate_of income expense)
  let s₂ := budget_adherence budgets (fun c => curCatExpense ts m y c)
  let s₃ := income_vs_expense_of income expense
  (s₁.1 + s₂.1 + s₃.1, s₁.2 ++ s₂.2 ++ s₃.2)

/-! ## Health score of the exported monthly report
(data_management.py lines 100-142) -/

/-- `report["summary"]["savings_rate"]` (line 109). -/
def summary_savings_rate (ts : List Tx) (m y : Nat) : ℚ :=
  savings_rate_of (curIncome ts m y) (curExpense ts m y)

/-- `report["financial_health"]["score"]` (lines 136-140): a simplified
scheme, `savings_score + income_vs_expense_score` with no budget component. -/
def report_health_score (ts : List Tx) (m y : Nat) : Int :=
  let r := summary_savings_rate ts m y
  (if r ≥ 20 then (40 : Int) else if r > 0 then 10 else 0) +
    (if r ≥ 20 then (30 : Int) else if r > 0 then 20 else 0)

/-! ## Budget status banding

Two call sites assign a textual status to a budget:
`view_budgets` (budgets.py lines 93-105) bands the utilization percentage at
70 and 100, while `generate_comprehensive_report` (analytics.py lines 446-456)
compares the spent amount against `0.9 * budget` and `budget`.  The float
percentages are modelled by exact rationals. -/

/-- `utilization_percent` (budgets.py line 93): `spent / budget * 100`,
0 when the budget amount is not positive. -/
def utilization (spent budget : Int) : ℚ :=
  if budget > 0 then (spent : ℚ) / (budget : ℚ) * 100 else 0

/-- Status text of `view_budgets` (budgets.py lines 95-105). -/
def view_budget_status (u : ℚ) : String :=
  if u < 70 then "OK"
  else if 70 ≤ u ∧ u ≤ 100 then "Warning"
  else "OVER"

/-- Status text of `generate_comprehensive_report` (analytics.py lines
449-456): sequential reassignment, `0.9` modelled exactly as `9/10`. -/
def report_budget_status (spent budget : Int) : String :=
  let st₁ := "OK"
  let st₂ := if (spent : ℚ) > (budget : ℚ) * (9 / 10) then "Nearing Limit" else st₁
  if spent > budget then "OVER BUDGET" else st₂

/-! ## Month selection of the savings trend (analytics.py lines 202-211)

`savings_analysis` picks the month key of trend entry `i` as
`today.replace(day=1) - timedelta(days=30 * i)`. -/

/-- Month key chosen by the code for trend entry `i`:
first of the current month minus `30 * i` days. -/
def target_month (today : Date) (i : Nat) : Nat × Nat :=
  let firstOfMonth : Date := ⟨today.year, today.month, 1⟩
  let d := fromDayNumber (toDayNumber firstOfMonth - 30 * (i : Int))
  (d.year, d.month)

/-- Modelled from the spec: exact calendar month stepping — the month key
`i` whole calendar months before the month of `today` (src has no such
function; spec section 4.2 requires it for the trailing-N-month series). -/
def month_back (today : Date) (i : Nat) : Nat × Nat :=
  let k := today.year * 12 + (today.month - 1) - i
  (k / 12, k % 12 + 1)

/-! ## Month-only current-month totals

`smart_recommendations` (smart_assistant.py lines 84-85) and the web
dashboard (main.py line 107) filter "current month" records by
`t["date"].month == datetime.now().month` — the month index alone,
without comparing the year. -/

/-- `total_income` of `smart_recommendations` (line 84): income records
whose date has the given month index, any year. -/
def sr_total_income : List Tx → Nat → Int
  | [], _ => 0
  | t :: ts, m =>
    (if t.type = "income" ∧ t.date.month = m then t.amount else 0)
      + sr_total_income ts m

/-! ## `show_balance` (transactions.py lines 154-195)

Per line: split, parse, and if the record is in the current month add its
amount to income when the kind is exactly `income`, otherwise — whatever
the kind string is — to expenses.  A malformed line raises `ValueError`,
caught inside the loop, so it is skipped and the loop continues. -/

/-- Income and expense totals of `show_balance` over the raw stored lines. -/
def show_balance_totals : List String → Nat → Nat → Int × Int
  | [], _, _ => (0, 0)
  | l :: ls, m, y =>
    let rest := show_balance_totals ls m y
    match parseLine l with
    | some t =>
      if t.date.month = m ∧ t.date.year = y then
        if t.type = "income" then (t.amount + rest.1, rest.2)
        else (rest.1, t.amount + rest.2)
      else rest
    | none => rest

/-! ## CSV import (data_management.py lines 166-235)

Rows (already header-validated and csv-split) are parsed independently;
a valid row is formatted back into the stored line format
`date,type.lower(),category,description,amount_paisa`.  If no row is valid
and at least one is invalid the function returns early without the
three-count summary; otherwise rows whose formatted line is already in the
store are duplicates, the rest are appended (modelling a confirmed import). -/

/-- Model of Python `float(str)` restricted to plain decimal literals
(optional sign, digits with at most one decimal point); the source only
ever feeds such strings through the documented CSV schema.  Exact rational
value (binary-float rounding of CPython is not modelled). -/
def parseDecimal (s : String) : Option ℚ :=
  let body : List Char → Option ℚ := fun cs =>
    match splitCharList '.' cs with
    | [ip] => if digitsOnlyL ip then some ((natOfDigitsL ip : Int) : ℚ) else none
    | [ip, fp] =>
      if (digitsOnlyL ip || ip.isEmpty) && (digitsOnlyL fp || fp.isEmpty)
          && !(ip.isEmpty && fp.isEmpty) then
        some (((natOfDigitsL ip : Int) : ℚ) +
          ((natOfDigitsL fp : Int) : ℚ) / ((10 ^ fp.length : Nat) : ℚ))
      else none
    | _ => none
  match (stripStr s).data with
  | [] => none
  | c :: cs =>
    if c = '-' then (body cs).map (fun q => -q)
    else if c = '+' then body cs
    else body (c :: cs)

/-- `int(float(amount_str) * 100)`: multiply by 100 and truncate toward
zero, as Python `int` of a float does; `q * 100 = (100 * q.num) / q.den`
exactly, and `Int.tdiv` truncates toward zero. -/
def truncPaisa (q : ℚ) : Int :=
  Int.tdiv (100 * q.num) (q.den : Int)

/-- Validate one CSV data row (lines 189-195) and format the stored line
that would be appended for it. -/
def fmtRow (row : List String) : Option String :=
  match row with
  | [ds, ty, cat, desc, amt] =>
    match parseDate ds, parseDecimal amt with
    | some _, some q =>
      some (ds ++ "," ++ lowerStr ty ++ "," ++ cat ++ "," ++ desc ++ ","
        ++ toString (truncPaisa q))
    | _, _ => none
  | _ => none

/-- Outcome of one confirmed import run. -/
structure ImportResult where
  found : Nat
  validNew : Nat
  dups : Nat
  invalid : Nat
  reported : Bool
  store : List String
deriving Repr

/-- `import_transactions_csv` on parsed data rows against a store of
(stripped) transaction lines, with the confirmation prompt answered yes. -/
def import_transactions_csv (rows : List (List String)) (store : List String) :
    ImportResult :=
  let news := rows.filterMap fmtRow
  let invalid := (rows.filter (fun r => (fmtRow r).isNone)).length
  if news = [] ∧ 0 < invalid then
    ⟨0, 0, 0, invalid, false, store⟩
  else
    let uniq := news.filter (fun t => !store.contains t)
    ⟨news.length, uniq.length, news.length - uniq.length, invalid, true,
      store ++ uniq⟩

/-! ## Helper lemmas -/

theorem sumValues_addTo (k : String) (v : Int) (m : List (String × Int)) :
    sumValues (addTo k v m) = sumValues m + v := by
  induction m with
  | nil => simp [addTo, sumValues]
  | cons p rest ih =>
    obtain ⟨k₀, v₀⟩ := p
    by_cases h : k₀ = k
    · simp only [addTo, if_pos h, sumValues, List.map_cons, List.sum_cons]
      ring
    · simp only [addTo, if_neg h, sumValues, List.map_cons, List.sum_cons] at ih ⊢
      omega

theorem spend_foldl_invariant (cm cy lm ly : Nat) (ts : List Tx) (s : SpendAgg)
    (h₁ : sumValues s.curMap = s.curTotal)
    (h₂ : sumValues s.lastMap = s.lastTotal) :
    sumValues (ts.foldl (spendStep cm cy lm ly) s).curMap
        = (ts.foldl (spendStep cm cy lm ly) s).curTotal ∧
    sumValues (ts.foldl (spendStep cm cy lm ly) s).lastMap
        = (ts.foldl (spendStep cm cy lm ly) s).lastTotal := by
  induction ts generalizing s with
  | nil => exact ⟨h₁, h₂⟩
  | cons t ts ih =>
    simp only [List.foldl_cons]
    apply ih <;> (unfold spendStep; split_ifs <;> simp [sumValues_addTo, h₁, h₂])

/-- C1: for every transaction set and every aggregation call of the
`spending_analysis` pass (per-category expense totals for the current and the
last month), the grand total equals the sum of the per-category totals, in
exact integer arithmetic. -/
theorem C1_grand_total_eq_sum_of_categories (ts : List Tx) (cm cy lm ly : Nat) :
    sumValues (spending_analysis_agg ts cm cy lm ly).curMap
        = (spending_analysis_agg ts cm cy lm ly).curTotal ∧
    sumValues (spending_analysis_agg ts cm cy lm ly).lastMap
        = (spending_analysis_agg ts cm cy lm ly).lastTotal :=
  spend_foldl_invariant cm cy lm ly ts ⟨[], [], 0, 0⟩ rfl rfl

theorem cappedSpent_le_totalBudget (budgets : List (String × Int))
    (spentBy : String → Int) :
    (budgets.map (fun p => min (spentBy p.1) p.2)).sum
      ≤ (budgets.map (fun p => p.2)).sum := by
  induction budgets with
  | nil => simp
  | cons p rest ih =>
    simp only [List.map_cons, List.sum_cons]
    exact add_le_add (min_le_right _ _) ih

/-- C2 (counterexample): with the budget mapping `{Food: 0}` and no spending,
budgets are set, no category is over budget and total spent (0) does not
exceed total budget (0), yet the sub-score is 0 — not the 30 the claim
requires — and the emitted recommendation is a set-up-budgets one. -/
theorem C2_counterexample :
    ([(("Food" : String), (0 : Int))] ≠ []) ∧
    ([(("Food" : String), (0 : Int))].filter
      (fun p => (fun _ => (0 : Int)) p.1 > p.2) = []) ∧
    (budget_adherence [("Food", 0)] (fun _ => 0)).1 = 0 ∧
    (budget_adherence [("Food", 0)] (fun _ => 0)).1 ≠ 30 ∧
    (budget_adherence [("Food", 0)] (fun _ => 0)).2
      = ["Set up budgets for better financial control."] := by decide

/-- C2 (amended): the budget-adherence sub-score is 0 with a set-up-budgets
recommendation when no budgets are set, and also when budgets are set but
their total amount is not positive; when the total budget is positive it is
30 with no recommendation when no category is over budget (total spent
against budget, capped per category, can then never exceed the total budget,
so the 20-point branch is unreachable), and 10 with an address-overspending
recommendation naming the categories when one or more categories are over. -/
theorem C2_budget_adherence_cases (budgets : List (String × Int))
    (spentBy : String → Int) :
    (budgets = [] →
      budget_adherence budgets spentBy
        = (0, ["Set up budgets to track your spending effectively."])) ∧
    (budgets ≠ [] → (budgets.map (fun p => p.2)).sum ≤ 0 →
      budget_adherence budgets spentBy
        = (0, ["Set up budgets for better financial control."])) ∧
    (0 < (budgets.map (fun p => p.2)).sum →
      (budgets.filter (fun p => spentBy p.1 > p.2) = [] →
        budget_adherence budgets spentBy = (30, [])) ∧
      (budgets.filter (fun p => spentBy p.1 > p.2) ≠ [] →
        budget_adherence budgets spentBy
          = (10, ["Address overspending in categories: "
              ++ pyListRepr ((budgets.filter
                    (fun p => spentBy p.1 > p.2)).map (fun p => p.1))
              ++ "."]))) := by
  refine ⟨fun h => by simp [budget_adherence, h], fun hne hle => ?_, fun hpos => ?_⟩
  · rw [budget_adherence, if_neg hne, if_neg (by omega)]
  · have hne : budgets ≠ [] := by
      intro h
      rw [h] at hpos
      simp at hpos
    constructor
    · intro hover
      rw [budget_adherence, if_neg hne, if_pos hpos,
        if_pos ⟨by simp [hover], cappedSpent_le_totalBudget budgets spentBy⟩]
    · intro hover
      have hlen : 0 < (budgets.filter (fun p => spentBy p.1 > p.2)).length :=
        List.length_pos.mpr hover
      rw [budget_adherence, if_neg hne, if_pos hpos, if_neg (by omega),
        if_neg (by omega), if_pos hlen]

/-- C2 (witness): a positive budget with no spending scores 30 with no
recommendation. -/
theorem C2_witness :
    budget_adherence [("Food", 10000)] (fun _ => 0) = (30, []) :=
  (C2_budget_adherence_cases [("Food", 10000)] (fun _ => 0)).2.2
    (by decide) |>.1 (by decide)

theorem parseLine_isSome_fields (l : String) (h : (parseLine l).isSome) :
    (splitOnC ',' (stripStr l)).length = 5 := by
  unfold parseLine at h
  split at h
  · rename_i heq
    rw [heq]
    rfl
  · simp at h

theorem readLines_all_parse (ls : List String)
    (h : ∀ l ∈ ls, (parseLine l).isSome) :
    read_transactions (some ls) = ls.filterMap parseLine := by
  induction ls with
  | nil => rfl
  | cons l ls ih =>
    have hl := h l (List.mem_cons_self l ls)
    obtain ⟨t, ht⟩ := Option.isSome_iff_exists.mp hl
    have hfields := parseLine_isSome_fields l hl
    show readLines (l :: ls) = _
    rw [readLines, if_pos hfields, ht, List.filterMap_cons]
    rw [ht]
    exact congrArg (t :: ·) (ih (fun x hx => h x (List.mem_cons_of_mem l hx)))

/-- C3 (counterexample): a store whose second line has an unparsable date —
the third line is well formed, yet `read_transactions` returns only the first
record: the remaining well-formed line is not returned, contradicting
independent silent dropping. -/
theorem C3_counterexample :
    read_transactions (some ["2024-05-01,expense,Food,a,100",
        "xx,expense,Food,a,100", "2024-05-02,income,Salary,b,200"])
      = [⟨⟨2024, 5, 1⟩, "expense", "Food", "a", 100⟩] ∧
    (parseLine "2024-05-02,income,Salary,b,200").isSome = true := by decide

/-- C3 (amended): a missing backing file yields the empty sequence; when every
line is well formed, `loadTransactions` returns exactly the parsed records; a
line with the wrong field count is dropped silently and independently (the
rest is still processed); but a five-field line whose date or amount fails to
parse aborts the load — the records before it are returned and everything
from it on is dropped. -/
theorem C3_load_behavior :
    read_transactions none = [] ∧
    (∀ ls : List String, (∀ l ∈ ls, (parseLine l).isSome) →
      read_transactions (some ls) = ls.filterMap parseLine) ∧
    (∀ (l : String) (ls : List String),
      (splitOnC ',' (stripStr l)).length ≠ 5 →
      readLines (l :: ls) = readLines ls) ∧
    (∀ (l : String) (ls : List String),
      (splitOnC ',' (stripStr l)).length = 5 → parseLine l = none →
      readLines (l :: ls) = []) :=
  ⟨rfl, fun ls h => readLines_all_parse ls h,
   fun l ls h => by simp [readLines, h],
   fun l ls h₁ h₂ => by simp [readLines, h₁, h₂]⟩

/-- C3 (witness): a fully well-formed store loads as its parsed records, and
a two-field line is skipped with the rest still processed. -/
theorem C3_witness :
    read_transactions (some ["2024-05-01,expense,Food,a,100"])
      = ["2024-05-01,expense,Food,a,100"].filterMap parseLine ∧
    readLines ["1,2", "2024-05-01,expense,Food,a,100"]
      = readLines ["2024-05-01,expense,Food,a,100"] :=
  ⟨C3_load_behavior.2.1 ["2024-05-01,expense,Food,a,100"] (by decide),
   C3_load_behavior.2.2.1 "1,2" ["2024-05-01,expense,Food,a,100"] (by decide)⟩

/-- C4 (counterexample): at 80% utilization (spent 8000 against budget
10000) `view_budgets` shows `Warning` while the comprehensive report shows
`OK` — the two call sites do not apply the same banding scheme. -/
theorem C4_counterexample :
    view_budget_status (utilization 8000 10000) = "Warning" ∧
    report_budget_status 8000 10000 = "OK" ∧
    ("Warning" : String) ≠ "OK" := by
  have hu : utilization 8000 10000 = 80 := by
    rw [utilization, if_pos (by norm_num : (0 : Int) < 10000)]
    norm_num
  refine ⟨?_, ?_, by decide⟩
  · rw [hu, view_budget_status, if_neg (by norm_num), if_pos (by norm_num)]
  · simp only [report_budget_status]
    norm_num

/-- C4 (amended): the two call sites band differently. For budget > 0,
`view_budgets` bands utilization at < 70% OK, 70-100% Warning, > 100% OVER,
while the comprehensive report bands the spent amount at ≤ 90% of budget OK,
> 90% Nearing Limit, > 100% OVER BUDGET; they agree below 70% and above
100%, but in [70%, 90%] the view shows Warning while the report shows OK,
and in (90%, 100%] the labels differ (Warning vs Nearing Limit). -/
theorem C4_two_banding_schemes (spent budget : Int) (hb : 0 < budget) :
    (100 * spent < 70 * budget →
      view_budget_status (utilization spent budget) = "OK" ∧
      report_budget_status spent budget = "OK") ∧
    (70 * budget ≤ 100 * spent → 10 * spent ≤ 9 * budget →
      view_budget_status (utilization spent budget) = "Warning" ∧
      report_budget_status spent budget = "OK") ∧
    (9 * budget < 10 * spent → spent ≤ budget →
      view_budget_status (utilization spent budget) = "Warning" ∧
      report_budget_status spent budget = "Nearing Limit") ∧
    (budget < spent →
      view_budget_status (utilization spent budget) = "OVER" ∧
      report_budget_status spent budget = "OVER BUDGET") := by
  have hbq : (0 : ℚ) < (budget : ℚ) := by exact_mod_cast hb
  have hu : utilization spent budget = (spent : ℚ) * 100 / (budget : ℚ) := by
    rw [utilization, if_pos hb, div_mul_eq_mul_div]
  have hlt70 : ∀ h : 100 * spent < 70 * budget,
      (spent : ℚ) * 100 / (budget : ℚ) < 70 := by
    intro h
    rw [div_lt_iff₀ hbq]
    have hq : (100 : ℚ) * spent < 70 * budget := by exact_mod_cast h
    linarith
  have hge70 : ∀ h : 70 * budget ≤ 100 * spent,
      (70 : ℚ) ≤ (spent : ℚ) * 100 / (budget : ℚ) := by
    intro h
    rw [le_div_iff₀ hbq]
    have hq : (70 : ℚ) * budget ≤ 100 * spent := by exact_mod_cast h
    linarith
  have hle100 : ∀ h : spent ≤ budget,
      (spent : ℚ) * 100 / (budget : ℚ) ≤ 100 := by
    intro h
    rw [div_le_iff₀ hbq]
    have hq : (spent : ℚ) ≤ budget := by exact_mod_cast h
    linarith
  have hnine : ∀ h : 10 * spent ≤ 9 * budget,
      ¬ ((spent : ℚ) > (budget : ℚ) * (9 / 10)) := by
    intro h
    rw [gt_iff_lt, not_lt, ← mul_div_assoc, le_div_iff₀ (by norm_num : (0:ℚ) < 10)]
    have hq : (10 : ℚ) * spent ≤ 9 * budget := by exact_mod_cast h
    linarith
  have hnine' : ∀ h : 9 * budget < 10 * spent,
      ((spent : ℚ) > (budget : ℚ) * (9 / 10)) := by
    intro h
    rw [gt_iff_lt, ← mul_div_assoc, div_lt_iff₀ (by norm_num : (0:ℚ) < 10)]
    have hq : (9 : ℚ) * budget < 10 * spent := by exact_mod_cast h
    linarith
  refine ⟨fun h => ⟨?_, ?_⟩, fun h₁ h₂ => ⟨?_, ?_⟩, fun h₁ h₂ => ⟨?_, ?_⟩,
    fun h => ⟨?_, ?_⟩⟩
  · rw [view_budget_status, hu, if_pos (hlt70 h)]
  · rw [report_budget_status, if_neg (by omega), if_neg (hnine (by omega))]
  · rw [view_budget_status, hu, if_neg (not_lt.mpr (hge70 h₁)),
      if_pos ⟨hge70 h₁, hle100 (by omega)⟩]
  · rw [report_budget_status, if_neg (by omega), if_neg (hnine h₂)]
  · rw [view_budget_status, hu, if_neg (not_lt.mpr (hge70 (by omega))),
      if_pos ⟨hge70 (by omega), hle100 h₂⟩]
  · rw [report_budget_status, if_neg (not_lt.mpr h₂), if_pos (hnine' h₁)]
  · have hgt100 : (100 : ℚ) < (spent : ℚ) * 100 / (budget : ℚ) := by
      rw [lt_div_iff₀ hbq]
      have hq : (budget : ℚ) < spent := by exact_mod_cast h
      linarith
    rw [view_budget_status, hu, if_neg (not_lt.mpr (hge70 (by omega))),
      if_neg (fun hc => absurd hgt100 (not_lt.mpr hc.2))]
  · rw [report_budget_status, if_pos h]

/-- C4 (witness): at 95% utilization both call sites are in their middle
band, but with different labels. -/
theorem C4_witness :
    view_budget_status (utilization 9500 10000) = "Warning" ∧
    report_budget_status 9500 10000 = "Nearing Limit" :=
  (C4_two_banding_schemes 9500 10000 (by norm_num)).2.2.1
    (by norm_num) (by norm_num)

/-- C5: the savings-trend month selection steps by 30·i days from the first
of the current month, not by whole calendar months.  With reference date
2024-03-15 the code selects January 2024 for both `i = 1` and `i = 2`
(February is skipped and January double-counted), while exact calendar
stepping gives February 2024 at `i = 1`. -/
theorem C5_trend_month_drift :
    target_month ⟨2024, 3, 15⟩ 1 = (2024, 1) ∧
    target_month ⟨2024, 3, 15⟩ 2 = (2024, 1) ∧
    month_back ⟨2024, 3, 15⟩ 1 = (2024, 2) ∧
    month_back ⟨2024, 3, 15⟩ 2 = (2024, 1) ∧
    target_month ⟨2024, 3, 15⟩ 1 ≠ month_back ⟨2024, 3, 15⟩ 1 := by decide

theorem savings_score_bounds (r : ℚ) :
    0 ≤ (savings_score_of r).1 ∧ (savings_score_of r).1 ≤ 40 := by
  refine ⟨?_, ?_⟩ <;> (unfold savings_score_of; split_ifs) <;> norm_num

theorem budget_adherence_bounds (budgets : List (String × Int))
    (spentBy : String → Int) :
    0 ≤ (budget_adherence budgets spentBy).1 ∧
      (budget_adherence budgets spentBy).1 ≤ 30 := by
  refine ⟨?_, ?_⟩ <;> (simp only [budget_adherence]; split_ifs) <;> norm_num

theorem income_vs_expense_bounds (income expense : Int) :
    0 ≤ (income_vs_expense_of income expense).1 ∧
      (income_vs_expense_of income expense).1 ≤ 30 := by
  refine ⟨?_, ?_⟩ <;> (simp only [income_vs_expense_of]; split_ifs) <;> norm_num

/-- C6: for every input — any transaction list (hence any income, including
zero), any budget mapping (including none) and any reference month — the
financial health score equals the sum of the three sub-scores and lies in
[0, 100]. -/
theorem C6_score_is_sum_and_bounded (ts : List Tx)
    (budgets : List (String × Int)) (m y : Nat) :
    (financial_health_score ts budgets m y).1
        = (savings_score_of (savings_rate_of (curIncome ts m y)
              (curExpense ts m y))).1
          + (budget_adherence budgets (fun c => curCatExpense ts m y c)).1
          + (income_vs_expense_of (curIncome ts m y) (curExpense ts m y)).1 ∧
    0 ≤ (financial_health_score ts budgets m y).1 ∧
    (financial_health_score ts budgets m y).1 ≤ 100 := by
  obtain ⟨h₁, h₂⟩ := savings_score_bounds
    (savings_rate_of (curIncome ts m y) (curExpense ts m y))
  obtain ⟨h₃, h₄⟩ := budget_adherence_bounds budgets
    (fun c => curCatExpense ts m y c)
  obtain ⟨h₅, h₆⟩ := income_vs_expense_bounds (curIncome ts m y)
    (curExpense ts m y)
  refine ⟨rfl, ?_, ?_⟩ <;> (show _ ≤ _; simp only [financial_health_score]) <;>
    omega

/-- C7 (counterexample): with one May-2024 income of 10000 and one expense of
8500 (savings rate 15%), the Financial Health Scorer gives 45 (25 + 0 + 20)
while the score embedded in the exported monthly report gives 30 (10 + 20):
the two call sites disagree. -/
theorem C7_counterexample :
    report_health_score
        [⟨⟨2024, 5, 1⟩, "income", "Salary", "Pay", 10000⟩,
         ⟨⟨2024, 5, 2⟩, "expense", "Food", "f", 8500⟩] 5 2024 = 30 ∧
    (financial_health_score
        [⟨⟨2024, 5, 1⟩, "income", "Salary", "Pay", 10000⟩,
         ⟨⟨2024, 5, 2⟩, "expense", "Food", "f", 8500⟩] [] 5 2024).1 = 45 ∧
    (30 : Int) ≠ 45 := by
  refine ⟨?_, ?_, by decide⟩
  · simp only [report_health_score, summary_savings_rate, savings_rate_of,
      curIncome, curExpense, String.reduceEq, reduceIte]
    norm_num
  · simp only [financial_health_score, curIncome, curExpense, curCatExpense,
      savings_rate_of, savings_score_of, budget_adherence,
      income_vs_expense_of, String.reduceEq, reduceIte]
    norm_num

/-- C7 (amended): the health score embedded in the exported monthly report is
not the Financial Health Scorer; it is the simplified two-component scheme
that omits budget adherence entirely and collapses to 70 when the savings
rate is at least 20%, 30 when it is strictly between 0% and 20%, and 0
otherwise. -/
theorem C7_report_score_characterization (ts : List Tx) (m y : Nat) :
    report_health_score ts m y
      = (if summary_savings_rate ts m y ≥ 20 then 70
         else if summary_savings_rate ts m y > 0 then 30 else 0) := by
  simp only [report_health_score]
  split_ifs <;> norm_num

theorem fmt_partition (rows : List (List String)) :
    (rows.filterMap fmtRow).length
      + (rows.filter (fun r => (fmtRow r).isNone)).length = rows.length := by
  induction rows with
  | nil => rfl
  | cons r rs ih =>
    cases h : fmtRow r <;> simp [List.filterMap_cons, List.filter_cons, h] <;>
      omega

theorem import_news_subset_store (rows : List (List String))
    (store : List String) (t : String) (ht : t ∈ rows.filterMap fmtRow) :
    t ∈ store ++ (rows.filterMap fmtRow).filter (fun x => !store.contains x) := by
  by_cases hs : t ∈ store
  · exact List.mem_append_left _ hs
  · refine List.mem_append_right _ (List.mem_filter.mpr ⟨ht, ?_⟩)
    simp [List.elem_iff, hs]

/-- C8 (counterexample): a file whose only data row is invalid (month 13) is
rejected early — nothing is persisted, but the three-count summary is not
produced; only the invalid count is surfaced, contradicting `all three counts
are reported to the caller` on every pass. -/
theorem C8_counterexample :
    (import_transactions_csv [["2024-13-01", "expense", "Food", "x", "10"]]
      []).reported = false ∧
    (import_transactions_csv [["2024-13-01", "expense", "Food", "x", "10"]]
      []).invalid = 1 ∧
    (import_transactions_csv [["2024-13-01", "expense", "Food", "x", "10"]]
      []).store = [] := by
  refine ⟨?_, ?_, ?_⟩ <;>
    simp [import_transactions_csv, fmtRow, parseDate, splitOnC, splitCharList,
      stripStr, digitsOnly, digitsOnlyL, natOfDigitsL, natOfDigits]

/-- C8 (amended): import is idempotent — running the same rows again against
the store produced by a first (confirmed) import classifies nothing as new
and leaves the store unchanged; on every pass the three classes partition the
rows (`validNew + duplicates + invalid = total`); exactly the `validNew`
formatted lines, none of which were already stored, are appended; and the
three-count summary is reported except on a pass where no row is valid and
at least one is invalid, in which case only the invalid count is surfaced. -/
theorem C8_import_idempotent (rows : List (List String)) (store : List String) :
    ((import_transactions_csv rows
        (import_transactions_csv rows store).store).validNew = 0 ∧
     (import_transactions_csv rows
        (import_transactions_csv rows store).store).store
       = (import_transactions_csv rows store).store) ∧
    ((import_transactions_csv rows store).validNew
      + (import_transactions_csv rows store).dups
      + (import_transactions_csv rows store).invalid = rows.length) ∧
    (∃ persisted : List String,
      (import_transactions_csv rows store).store = store ++ persisted ∧
      persisted.length = (import_transactions_csv rows store).validNew ∧
      ∀ t ∈ persisted, t ∈ rows.filterMap fmtRow ∧ t ∉ store) ∧
    ((import_transactions_csv rows store).reported = false ↔
      rows.filterMap fmtRow = [] ∧
        0 < (import_transactions_csv rows store).invalid) := by
  by_cases h : rows.filterMap fmtRow = [] ∧
      0 < (rows.filter (fun r => (fmtRow r).isNone)).length
  · have h₁ : import_transactions_csv rows store
        = ⟨0, 0, 0, (rows.filter (fun r => (fmtRow r).isNone)).length,
            false, store⟩ := by
      simp only [import_transactions_csv]
      rw [if_pos h]
    rw [h₁]
    refine ⟨?_, ?_, ⟨[], by simp, rfl, by simp⟩, ?_⟩
    · simp only [import_transactions_csv]
      rw [if_pos h]
      exact ⟨rfl, rfl⟩
    · have := fmt_partition rows
      rw [h.1] at this
      simpa using this
    · simpa using h
  · have h₁ : import_transactions_csv rows store
        = ⟨(rows.filterMap fmtRow).length,
            ((rows.filterMap fmtRow).filter (fun t => !store.contains t)).length,
            (rows.filterMap fmtRow).length
              - ((rows.filterMap fmtRow).filter
                  (fun t => !store.contains t)).length,
            (rows.filter (fun r => (fmtRow r).isNone)).length, true,
            store ++ (rows.filterMap fmtRow).filter
              (fun t => !store.contains t)⟩ := by
      simp only [import_transactions_csv]
      rw [if_neg h]
    rw [h₁]
    have hsub : ((rows.filterMap fmtRow).filter
        (fun t => !store.contains t)).length ≤ (rows.filterMap fmtRow).length :=
      List.length_filter_le _ _
    have hpart := fmt_partition rows
    refine ⟨?_, by dsimp only; omega, ?_, ?_⟩
    · -- second pass: everything valid is now stored
      have hnil : (rows.filterMap fmtRow).filter
          (fun t => !((store ++ (rows.filterMap fmtRow).filter
            (fun x => !store.contains x)).contains t)) = [] := by
        rw [List.filter_eq_nil_iff]
        intro t ht
        have hmem := import_news_subset_store rows store t ht
        have hc : (store ++ (rows.filterMap fmtRow).filter
            (fun x => !store.contains x)).contains t = true :=
          List.elem_iff.mpr hmem
        intro hfalse
        simp only [hc, Bool.not_true] at hfalse
        exact Bool.noConfusion hfalse
      have h₂ : ¬ (rows.filterMap fmtRow = [] ∧
          0 < (rows.filter (fun r => (fmtRow r).isNone)).length) := h
      constructor
      · simp only [import_transactions_csv]
        rw [if_neg h₂]
        simpa using congrArg List.length hnil
      · simp only [import_transactions_csv]
        rw [if_neg h₂]
        dsimp only
        rw [hnil, List.append_nil]
    · refine ⟨(rows.filterMap fmtRow).filter (fun t => !store.contains t),
        rfl, rfl, fun t ht => ?_⟩
      refine ⟨(List.mem_filter.mp ht).1, fun hs => ?_⟩
      have h4 := (List.mem_filter.mp ht).2
      simp [List.elem_iff, hs] at h4
    · exact iff_of_false (by simp) h

/-- Concrete one-row CSV for the C8 witness. -/
def exRows : List (List String) :=
  [["2024-05-01", "Expense", "Food", "x", "10"]]

/-- C8 (witness): importing the one-row file into an empty store persists its
formatted line; importing it again classifies nothing as new. -/
theorem C8_witness :
    (import_transactions_csv exRows
      (import_transactions_csv exRows []).store).validNew = 0 ∧
    (import_transactions_csv exRows []).store
      = ["2024-05-01,expense,Food,x,1000"] :=
  ⟨(C8_import_idempotent exRows []).1.1, by decide⟩

/-- C9: the current-month totals of `smart_recommendations` (and of the web
dashboard) filter by the month index only — an October 2023 income record is
included in the "current month" income total of any reference instant whose
month is October, even in a different year such as 2026. -/
theorem C9_month_only_filter :
    sr_total_income [⟨⟨2023, 10, 5⟩, "income", "Salary", "Pay", 5000⟩] 10
      = 5000 ∧
    (⟨2023, 10, 5⟩ : Date).year ≠ 2026 := by decide

theorem spend_foldl_curTotal (cm cy lm ly : Nat) (ts : List Tx) (s : SpendAgg) :
    (ts.foldl (spendStep cm cy lm ly) s).curTotal
      = s.curTotal + (ts.map (fun t =>
          if t.type = "expense" ∧ t.date.month = cm ∧ t.date.year = cy
          then t.amount else 0)).sum := by
  induction ts generalizing s with
  | nil => simp
  | cons t ts ih =>
    simp only [List.foldl_cons, List.map_cons, List.sum_cons]
    rw [ih]
    have hstep : (spendStep cm cy lm ly s t).curTotal
        = s.curTotal + (if t.type = "expense" ∧ t.date.month = cm
            ∧ t.date.year = cy then t.amount else 0) := by
      unfold spendStep
      by_cases h₁ : t.type = "expense" <;>
        by_cases h₂ : t.date.month = cm ∧ t.date.year = cy <;>
          (simp [h₁, h₂]; try (split_ifs <;> simp))
    rw [hstep]
    ring

theorem show_balance_filterMap (lines : List String) (m y : Nat) :
    (show_balance_totals lines m y).2
      = ((lines.filterMap parseLine).map (fun t =>
          if (t.date.month = m ∧ t.date.year = y) ∧ ¬ t.type = "income"
          then t.amount else 0)).sum := by
  induction lines with
  | nil => rfl
  | cons l ls ih =>
    cases hp : parseLine l with
    | none => simp [show_balance_totals, List.filterMap_cons, hp, ih]
    | some t =>
      simp only [show_balance_totals, List.filterMap_cons, hp, List.map_cons,
        List.sum_cons]
      by_cases h₁ : t.date.month = m ∧ t.date.year = y <;>
        by_cases h₂ : t.type = "income" <;> (simp [h₁, h₂, ih]; try ring)

theorem balance_split (ts : List Tx) (m y : Nat) :
    (ts.map (fun t => if (t.date.month = m ∧ t.date.year = y)
        ∧ ¬ t.type = "income" then t.amount else 0)).sum
      = (ts.map (fun t => if t.type = "expense" ∧ t.date.month = m
          ∧ t.date.year = y then t.amount else 0)).sum
        + curUnknownKind ts m y := by
  induction ts with
  | nil => simp [curUnknownKind]
  | cons t ts ih =>
    simp only [List.map_cons, List.sum_cons, curUnknownKind]
    rw [ih]
    by_cases h₁ : t.date.month = m ∧ t.date.year = y <;>
      by_cases h₂ : t.type = "income" <;> by_cases h₃ : t.type = "expense" <;>
        first
          | (exfalso; rw [h₂] at h₃; exact absurd h₃ (by decide))
          | (simp only [h₁, h₂, h₃] ; simp [h₁, h₂, h₃] ; try ring)

/-- C10: the monthly balance counts every current-month record whose kind is
not exactly `income` as an expense — including unknown kinds — while the
spending aggregation counts only records whose kind is exactly `expense`; so
on a well-formed store the balance expense total always exceeds the spending
expense total by exactly the current-month total of unknown-kind records. -/
theorem C10_balance_counts_unknown_kinds (lines : List String)
    (m y lm ly : Nat) (h : ∀ l ∈ lines, (parseLine l).isSome) :
    (show_balance_totals lines m y).2
      = (spending_analysis_agg (read_transactions (some lines))
          m y lm ly).curTotal
        + curUnknownKind (read_transactions (some lines)) m y := by
  rw [readLines_all_parse lines h, show_balance_filterMap, balance_split,
    spending_analysis_agg, spend_foldl_curTotal]
  simp

/-- Concrete store for the C10 witness: an income, an unknown-kind (`refund`)
record and an expense, all in May 2024. -/
def exLines : List String :=
  ["2024-05-01,income,Salary,Pay,10000",
   "2024-05-02,refund,Shopping,r,500",
   "2024-05-03,expense,Food,f,2000"]

/-- C10 (witness): on the concrete store the balance expense total is 2500 =
2000 (spending aggregation) + 500 (the `refund` record). -/
theorem C10_witness :
    (show_balance_totals exLines 5 2024).2
      = (spending_analysis_agg (read_transactions (some exLines))
          5 2024 4 2024).curTotal
        + curUnknownKind (read_transactions (some exLines)) 5 2024 ∧
    (show_balance_totals exLines 5 2024).2 = 2500 ∧
    (spending_analysis_agg (read_transactions (some exLines))
        5 2024 4 2024).curTotal = 2000 ∧
    curUnknownKind (read_transactions (some exLines)) 5 2024 = 500 :=
  ⟨C10_balance_counts_unknown_kinds exLines 5 2024 4 2024 (by decide),
   by decide, by decide, by decide⟩

end FinanceTracker
